import Mathlib

/-!
Verification of the ParOpt interior-point engine (ParOptInteriorPoint.cpp).

The development shallowly embeds the scalar and vector computations of the
solver over the rationals.  Distributed vectors become lists of rationals,
the C double arithmetic becomes exact rational arithmetic, and each embedded
definition carries a reference to the source lines it translates.
-/

namespace ParOpt

/-- Componentwise body of computeStep (source lines 3605-3649).  The step
x + alpha*p is computed first; the result is then clamped to at least
lower + design_precision when a lower bound is present (the source tests
x <= lb + design_precision), and then clamped to at most
upper - design_precision when an upper bound is present (the source tests
x + design_precision >= ub). -/
def computeStepComponent (design_precision alpha : ℚ)
    (lower upper : Option ℚ) (x p : ℚ) : ℚ :=
  let y := x + alpha * p
  let y1 :=
    match lower with
    | some lb => if y ≤ lb + design_precision then lb + design_precision else y
    | none => y
  match upper with
  | some ub => if ub ≤ y1 + design_precision then ub - design_precision else y1
  | none => y1

/-- The computeStep call shape with a scalar lower bound and no upper bound
(source lines 3624-3631); used for every slack and multiplier update with
lower value zero (lines 4388-4402 and 4574-4592). -/
def computeStepLowerList (design_precision alpha lower : ℚ)
    (xs ps : List ℚ) : List ℚ :=
  (xs.zip ps).map fun q =>
    computeStepComponent design_precision alpha (some lower) none q.1 q.2

/-- The computeStep call shape with vector lower and upper bounds (source
lines 3616-3623 and 3633-3640); used for the design variables x with the
bound vectors lb and ub (lines 4388 and 4613). -/
def computeStepBoundsList (design_precision alpha : ℚ)
    (xs ps lbs ubs : List ℚ) : List ℚ :=
  ((xs.zip ps).zip (lbs.zip ubs)).map fun q =>
    computeStepComponent design_precision alpha (some q.2.1) (some q.2.2) q.1.1 q.1.2

/-- The step vectors of the KKT system, as named in the source. -/
structure StepVecs where
  px : List ℚ
  ps : List ℚ
  pt : List ℚ
  pz : List ℚ
  pzt : List ℚ
  pzl : List ℚ
  pzu : List ℚ
  pzw : List ℚ
  psw : List ℚ
  deriving DecidableEq

/-- The primary variables of the solver, as named in the source. -/
structure VarVecs where
  x : List ℚ
  s : List ℚ
  t : List ℚ
  z : List ℚ
  zt : List ℚ
  zl : List ℚ
  zu : List ℚ
  zw : List ℚ
  sw : List ℚ
  deriving DecidableEq

/-- Variable update portion of computeStepAndUpdate (source lines 4574-4613):
zw, sw, zl, zu, z, s, t and zt are stepped with a scalar lower bound of zero,
and x is stepped with the bound vectors lb and ub.  The flags mirror the
conditionals guarding each update in the source; the nwcon > 0 guard is
represented by the lists being empty when there are no sparse constraints. -/
def computeStepAndUpdateVars (design_precision alpha : ℚ) (lb ub : List ℚ)
    (sparse_inequality use_lower use_upper dense_inequality : Bool)
    (v : VarVecs) (p : StepVecs) : VarVecs where
  x := computeStepBoundsList design_precision alpha v.x p.px lb ub
  zw := computeStepLowerList design_precision alpha 0 v.zw p.pzw
  sw := if sparse_inequality then
      computeStepLowerList design_precision alpha 0 v.sw p.psw else v.sw
  zl := if use_lower then
      computeStepLowerList design_precision alpha 0 v.zl p.pzl else v.zl
  zu := if use_upper then
      computeStepLowerList design_precision alpha 0 v.zu p.pzu else v.zu
  z := computeStepLowerList design_precision alpha 0 v.z p.pz
  s := if dense_inequality then
      computeStepLowerList design_precision alpha 0 v.s p.ps else v.s
  t := if dense_inequality then
      computeStepLowerList design_precision alpha 0 v.t p.pt else v.t
  zt := if dense_inequality then
      computeStepLowerList design_precision alpha 0 v.zt p.pzt else v.zt

/-- The trial point computed at each line-search iteration. -/
structure TrialPoint where
  rx : List ℚ
  rs : List ℚ
  rt : List ℚ
  rsw : List ℚ
  deriving DecidableEq

/-- Trial point of one line-search iteration in the inequality configuration
(source lines 4386-4402): rx = x + alpha*px clamped into the bounds, and
rs, rt, rsw stepped with a scalar lower bound of zero. -/
def lineSearchTrialPoint (design_precision alpha : ℚ) (lb ub : List ℚ)
    (v : VarVecs) (p : StepVecs) : TrialPoint where
  rx := computeStepBoundsList design_precision alpha v.x p.px lb ub
  rs := computeStepLowerList design_precision alpha 0 v.s p.ps
  rt := computeStepLowerList design_precision alpha 0 v.t p.pt
  rsw := computeStepLowerList design_precision alpha 0 v.sw p.psw

/-- Application of the fraction-to-boundary scalars to the step vectors
(source scaleKKTStep, lines 3713-3733): px, psw, ps and pt are scaled by
alpha_x; pzw, pzl, pzu, pz and pzt are scaled by alpha_z.  The flags mirror
the conditionals in the source; the nwcon > 0 guard is represented by the
sparse lists being empty when there are no sparse constraints. -/
def scaleKKTStepVecs (alpha_x alpha_z : ℚ)
    (sparse_inequality use_lower use_upper dense_inequality : Bool)
    (p : StepVecs) : StepVecs where
  px := p.px.map fun v => alpha_x * v
  pzw := p.pzw.map fun v => alpha_z * v
  psw := if sparse_inequality then p.psw.map (fun v => alpha_x * v) else p.psw
  pzl := if use_lower then p.pzl.map (fun v => alpha_z * v) else p.pzl
  pzu := if use_upper then p.pzu.map (fun v => alpha_z * v) else p.pzu
  pz := p.pz.map fun v => alpha_z * v
  ps := if dense_inequality then p.ps.map (fun v => alpha_x * v) else p.ps
  pt := if dense_inequality then p.pt.map (fun v => alpha_x * v) else p.pt
  pzt := if dense_inequality then p.pzt.map (fun v => alpha_z * v) else p.pzt

/-- Scaling rule asserted by the specification sentence for claim C6: the
scalar alpha_x is applied to px, ps, pt, psw and pzt, and alpha_z is applied
to pz, pzl, pzu and pzw.  This follows the words of the spec, to be compared
with scaleKKTStepVecs translated from the source. -/
def scaleKKTStepVecsSpec (alpha_x alpha_z : ℚ)
    (sparse_inequality use_lower use_upper dense_inequality : Bool)
    (p : StepVecs) : StepVecs where
  px := p.px.map fun v => alpha_x * v
  pzw := p.pzw.map fun v => alpha_z * v
  psw := if sparse_inequality then p.psw.map (fun v => alpha_x * v) else p.psw
  pzl := if use_lower then p.pzl.map (fun v => alpha_z * v) else p.pzl
  pzu := if use_upper then p.pzu.map (fun v => alpha_z * v) else p.pzu
  pz := p.pz.map fun v => alpha_z * v
  ps := if dense_inequality then p.ps.map (fun v => alpha_x * v) else p.ps
  pt := if dense_inequality then p.pt.map (fun v => alpha_x * v) else p.pt
  pzt := if dense_inequality then p.pzt.map (fun v => alpha_x * v) else p.pzt

/-- Early evaluation phase of optimize (source lines 4800-4812).  The initial
objective and constraint evaluation returns fail_obj and, if nonzero, optimize
returns fail_obj.  The initial gradient evaluation returns fail_gobj and, if
nonzero, the source again returns fail_obj (line 4811), not fail_gobj.  The
result is some r when optimize returns early with code r, and none when the
optimization proceeds. -/
def optimizeInitEval (fail_obj fail_gobj : ℤ) : Option ℤ :=
  if fail_obj ≠ 0 then some fail_obj
  else if fail_gobj ≠ 0 then some fail_obj
  else none

/-- Input data of computeComp (source lines 3255-3319): the design variables
with their bounds and bound multipliers, the dense slacks and multipliers,
the configuration flags and the two scalar options it reads. -/
structure CompInput where
  use_lower : Bool
  use_upper : Bool
  dense_inequality : Bool
  max_bound_val : ℚ
  rel_bound_barrier : ℚ
  x : List ℚ
  lb : List ℚ
  ub : List ℚ
  zl : List ℚ
  zu : List ℚ
  s : List ℚ
  z : List ℚ
  t : List ℚ
  zt : List ℚ
  deriving DecidableEq

/-- Accumulation loop over the live lower bounds (source lines 3268-3275):
for each index with lb > -max_bound_val, add zl*(x - lb) to the product and
one to the counter. -/
def compLowerAcc (max_bound_val : ℚ) (xlz : List (ℚ × ℚ × ℚ))
    (acc : ℚ × ℚ) : ℚ × ℚ :=
  xlz.foldl (fun pr q =>
    if -max_bound_val < q.2.1 then (pr.1 + q.2.2 * (q.1 - q.2.1), pr.2 + 1)
    else pr) acc

/-- Accumulation loop over the live upper bounds (source lines 3277-3284):
for each index with ub < max_bound_val, add zu*(ub - x) to the product and
one to the counter. -/
def compUpperAcc (max_bound_val : ℚ) (xuz : List (ℚ × ℚ × ℚ))
    (acc : ℚ × ℚ) : ℚ × ℚ :=
  xuz.foldl (fun pr q =>
    if q.2.1 < max_bound_val then (pr.1 + q.2.2 * (q.2.1 - q.1), pr.2 + 1)
    else pr) acc

/-- Accumulation loop over the dense constraints (source lines 3303-3308):
add s*z + t*zt to the product and two to the counter for every constraint. -/
def compDenseAcc (szt : List ((ℚ × ℚ) × ℚ × ℚ)) (acc : ℚ × ℚ) : ℚ × ℚ :=
  szt.foldl (fun pr q =>
    (pr.1 + q.1.1 * q.1.2 + q.2.1 * q.2.2, pr.2 + 2)) acc

/-- Average complementarity computeComp (source lines 3255-3319).  The bound
products are accumulated first, the running product is divided by
rel_bound_barrier (line 3287), the dense s*z + t*zt terms are added when
dense_inequality is set, and the result is product/sum when the counter is
nonzero and zero otherwise (lines 3310-3312). -/
def computeComp (ci : CompInput) : ℚ :=
  let acc0 : ℚ × ℚ := (0, 0)
  let acc1 := if ci.use_lower then
      compLowerAcc ci.max_bound_val (ci.x.zip (ci.lb.zip ci.zl)) acc0 else acc0
  let acc2 := if ci.use_upper then
      compUpperAcc ci.max_bound_val (ci.x.zip (ci.ub.zip ci.zu)) acc1 else acc1
  let acc3 : ℚ × ℚ := (acc2.1 / ci.rel_bound_barrier, acc2.2)
  let acc4 := if ci.dense_inequality then
      compDenseAcc ((ci.s.zip ci.z).zip (ci.t.zip ci.zt)) acc3 else acc3
  if acc4.2 ≠ 0 then acc4.1 / acc4.2 else 0

/-- getComplementarity (source lines 1135-1137) simply calls computeComp. -/
def getComplementarity (ci : CompInput) : ℚ :=
  computeComp ci

/-- Complementarity value asserted by the specification sentence for claim
C7: the sum over live bounds of slack times multiplier divided by
rel_bound_barrier, plus the dense s*z + t*zt terms, all divided by
2*ncon + number of live bounds + number of sparse inequality constraints.
This follows the words of the spec, to be compared with computeComp
translated from the source. -/
def getComplementarityClaim (ci : CompInput) (nwcon_ineq : ℕ) : ℚ :=
  let lowTerms := (ci.x.zip (ci.lb.zip ci.zl)).filter
      (fun q => -ci.max_bound_val < q.2.1)
  let upTerms := (ci.x.zip (ci.ub.zip ci.zu)).filter
      (fun q => q.2.1 < ci.max_bound_val)
  let bndProd := (lowTerms.map (fun q => q.2.2 * (q.1 - q.2.1))).sum
      + (upTerms.map (fun q => q.2.2 * (q.2.1 - q.1))).sum
  let denseProd := ((ci.s.zip ci.z).map (fun q => q.1 * q.2)).sum
      + ((ci.t.zip ci.zt).map (fun q => q.1 * q.2)).sum
  let ncon := ci.z.length
  (bndProd / ci.rel_bound_barrier + denseProd) /
    ((2 * ncon : ℕ) + (lowTerms.length + upTerms.length) + nwcon_ineq : ℚ)

/-- Closed form of the complementarity for the amended claim C7: the sum
over live bounds of bound slack times bound multiplier divided by
rel_bound_barrier, plus the sum over dense constraints of s*z + t*zt,
divided by 2*ncon plus the number of live bounds, with no sparse term. -/
def computeCompAmended (ci : CompInput) : ℚ :=
  let lowTerms := (ci.x.zip (ci.lb.zip ci.zl)).filter fun q =>
    decide (-ci.max_bound_val < q.2.1)
  let upTerms := (ci.x.zip (ci.ub.zip ci.zu)).filter fun q =>
    decide (q.2.1 < ci.max_bound_val)
  let bndProd := (lowTerms.map fun q => q.2.2 * (q.1 - q.2.1)).sum +
    (upTerms.map fun q => q.2.2 * (q.2.1 - q.1)).sum
  let denseProd := (((ci.s.zip ci.z).zip (ci.t.zip ci.zt)).map fun q =>
    q.1.1 * q.1.2 + q.2.1 * q.2.2).sum
  (bndProd / ci.rel_bound_barrier + denseProd) /
    (2 * (ci.z.length : ℚ) +
      ((lowTerms.length : ℚ) + (upTerms.length : ℚ)))

/-- Relative function-value test of optimize (source lines 5084-5087): the
previous x and z step scalings were both exactly one, and the change in the
objective is below rel_func_tol times the magnitude of the previous value. -/
def relFunctionTest (alpha_xprev alpha_zprev fobj fobj_prev rel_func_tol : ℚ) :
    Bool :=
  decide (alpha_xprev = 1) && decide (alpha_zprev = 1) &&
    decide (|fobj - fobj_prev| < rel_func_tol * |fobj_prev|)

/-- Update of the line_search_test counter at the top of each major iteration
(source lines 5092-5097): increment when the previous iteration had no merit
function improvement, reset to zero otherwise. -/
def lineSearchTestUpdate (no_merit_function_improvement : Bool)
    (line_search_test : ℕ) : ℕ :=
  if no_merit_function_improvement then line_search_test + 1 else 0

/-- Global convergence gate of optimize (source lines 5227-5245): converged
exactly when k > 0, the barrier parameter is at most 0.1*abs_res_tol, and
either res_norm < abs_res_tol, or the relative function test passed, or the
line-search test counter is at least two.  When the gate holds the major
iteration loop exits (break at line 5253). -/
def checkConvergence (k : ℕ) (barrier_param abs_res_tol res_norm : ℚ)
    (rel_function_test : Bool) (line_search_test : ℕ) : Bool :=
  decide (0 < k) && decide (barrier_param ≤ (1 / 10) * abs_res_tol) &&
    (decide (res_norm < abs_res_tol) || rel_function_test ||
      decide (2 ≤ line_search_test))

/-- Barrier subproblem convergence test of the Monotone strategy (source
lines 5121-5126): k > 0 and either res_norm < 10*mu, or the relative
function test passed, or the line-search test counter is at least two. -/
def barrierConverged (k : ℕ) (res_norm barrier_param : ℚ)
    (rel_function_test : Bool) (line_search_test : ℕ) : Bool :=
  decide (0 < k) && (decide (res_norm < 10 * barrier_param) ||
    rel_function_test || decide (2 ≤ line_search_test))

/-- New barrier parameter of the Monotone strategy (source lines 5142-5155):
the smaller of mu_frac = monotone_barrier_fraction*mu and
mu_pow = mu^monotone_barrier_power, truncated: whenever that minimum is below
0.1*abs_res_tol the new value is set to 0.09999*abs_res_tol.  The two
candidates are taken as inputs; mu_pow stands for the value the source
computes with the C pow function. -/
def monotoneNewBarrier (mu_frac mu_pow abs_res_tol : ℚ) : ℚ :=
  let nbp := if mu_pow < mu_frac then mu_pow else mu_frac
  if nbp < (1 / 10) * abs_res_tol then (9999 / 100000) * abs_res_tol else nbp

/-- Barrier update asserted by the specification sentence for claim C3: the
minimum of the two candidates floored at 0.09999*abs_res_tol, that is, the
maximum of the minimum and the floor value.  This follows the words of the
spec, to be compared with monotoneNewBarrier translated from the source. -/
def monotoneNewBarrierClaim (mu_frac mu_pow abs_res_tol : ℚ) : ℚ :=
  max (min mu_frac mu_pow) ((9999 / 100000) * abs_res_tol)

/-- Result of the Monotone barrier block for one major iteration: the barrier
parameter, the penalty parameter, and the barrier value at which the KKT
residuals were recomputed inside the block, if they were. -/
structure MonotoneUpdate where
  barrier_param : ℚ
  rho_penalty_search : ℚ
  res_recompute : Option ℚ
  deriving DecidableEq

/-- Monotone barrier block of optimize (source lines 5109-5166).  When the
barrier subproblem has converged the new barrier parameter is computed by
monotoneNewBarrier, the KKT residuals are recomputed at the new value (line
5158), and the penalty parameter is reset to min_rho_penalty_search (line
5162); otherwise nothing changes. -/
def monotoneBarrierUpdate (k : ℕ) (res_norm : ℚ) (rel_function_test : Bool)
    (line_search_test : ℕ)
    (barrier_param mu_pow abs_res_tol monotone_barrier_fraction
      rho_penalty_search min_rho_penalty_search : ℚ) : MonotoneUpdate :=
  if barrierConverged k res_norm barrier_param rel_function_test
      line_search_test then
    let nbp := monotoneNewBarrier (monotone_barrier_fraction * barrier_param)
        mu_pow abs_res_tol
    { barrier_param := nbp
      rho_penalty_search := min_rho_penalty_search
      res_recompute := some nbp }
  else
    { barrier_param := barrier_param
      rho_penalty_search := rho_penalty_search
      res_recompute := none }

/-- factorCw in the nwblock = 1 configuration (source lines 1864-1875): walk
the diagonal entries in order, replacing each nonzero entry by its
reciprocal; on the first zero entry return the failure code one, leaving the
remaining entries untouched.  The returned pair is the status and the
resulting buffer. -/
def factorCw : List ℚ → ℤ × List ℚ
  | [] => (0, [])
  | c :: rest =>
    if c = 0 then (1, c :: rest)
    else
      let r := factorCw rest
      (r.1, c⁻¹ :: r.2)

/-- Buffer left behind by the factorization phase of setUpKKTDiagSystem
(source line 2077): the call factorCw() appears in statement position, so its
status is discarded and only the mutated buffer remains. -/
def setUpKKTDiagSystemCw (Cw : List ℚ) : List ℚ :=
  (factorCw Cw).2

/-- Value that setUpKKTDiagSystem returns to its caller (source lines
1958-2200).  The function is declared void: the factorCw status is discarded
in statement position at line 2077, and the LAPACK info from the LU
factorization of Dmat at line 2198 is stored in a local that is never read
before the function ends at line 2200.  The caller therefore receives no
status, for every buffer content and every LAPACK info value. -/
def setUpKKTDiagSystemStatusToCaller (_Cw : List ℚ) (_dgetrf_info : ℤ) :
    Option ℤ :=
  none

/-- Primal and dual state stored by the checkpoint routines, with the sizes
of the solver instance given by the list lengths: x, zl and zu have the
total variable count, zw and sw the total sparse constraint count, and z, s,
t and zt the dense constraint count ncon. -/
structure SolverState where
  barrier_param : ℚ
  z : List ℚ
  s : List ℚ
  x : List ℚ
  zl : List ℚ
  zu : List ℚ
  zw : List ℚ
  sw : List ℚ
  t : List ℚ
  zt : List ℚ
  deriving DecidableEq

/-- Contents of the checkpoint file (source writeSolutionFile, lines
791-876): the three sizes, the barrier parameter, z, s, then x, zl, zu, zw
and sw.  The t slacks and zt multipliers are not written. -/
structure CheckpointFile where
  nvars_total : ℕ
  nwcon_total : ℕ
  ncon : ℕ
  barrier_param : ℚ
  z : List ℚ
  s : List ℚ
  x : List ℚ
  zl : List ℚ
  zu : List ℚ
  zw : List ℚ
  sw : List ℚ
  deriving DecidableEq

/-- writeSolutionFile (source lines 791-876): record the solver sizes and
the stored fields of the state. -/
def writeSolutionFile (st : SolverState) : CheckpointFile where
  nvars_total := st.x.length
  nwcon_total := st.zw.length
  ncon := st.z.length
  barrier_param := st.barrier_param
  z := st.z
  s := st.s
  x := st.x
  zl := st.zl
  zu := st.zu
  zw := st.zw
  sw := st.sw

/-- readSolutionFile (source lines 887-998).  The sizes recorded in the file
are compared with the sizes of the solver (lines 914-918); on mismatch the
call returns the failure code one having modified nothing (lines 930-939).
Otherwise the barrier parameter, z, s, x, zl, zu, zw and sw are overwritten
from the file and zero is returned; t and zt are not read. -/
def readSolutionFile (file : CheckpointFile) (st : SolverState) :
    ℤ × SolverState :=
  if file.nvars_total ≠ st.x.length ∨ file.nwcon_total ≠ st.zw.length ∨
      file.ncon ≠ st.z.length then
    (1, st)
  else
    (0, { st with
      barrier_param := file.barrier_param
      z := file.z
      s := file.s
      x := file.x
      zl := file.zl
      zu := file.zu
      zw := file.zw
      sw := file.sw })

/-- Outcome flags of the merit line search, one field per bit of the source
bitmask.  Modelled from the spec: the enumerators
PAROPT_LINE_SEARCH_{SUCCESS, FAILURE, MIN_STEP, MAX_ITERS, NO_IMPROVEMENT}
are declared in a header outside the provided sources; the spec describes
them as bit-flags, which the record represents with one Boolean each. -/
structure LineSearchStatus where
  success : Bool
  failure : Bool
  min_step : Bool
  max_iters : Bool
  no_improvement : Bool
  deriving DecidableEq

/-- Guard under which lineSearch raises the NO_IMPROVEMENT flag (source
lines 4505-4506): the final merit value is at least m0 + function_precision
and at most m0 - function_precision simultaneously. -/
def lineSearchNoImprovGuard (merit m0 function_precision : ℚ) : Bool :=
  decide (m0 + function_precision ≤ merit) &&
    decide (merit + function_precision ≤ m0)

/-- Guard under which the skipped-line-search path of optimize sets the
NO_IMPROVEMENT outcome (source lines 5450-5452): fobj is at least
fobj_prev + function_precision and at most fobj_prev - function_precision
simultaneously. -/
def skippedStepNoImprovGuard (fobj_prev fobj function_precision : ℚ) : Bool :=
  decide (fobj_prev + function_precision ≤ fobj) &&
    decide (fobj + function_precision ≤ fobj_prev)

/-- Initial value of the fail variable in lineSearch (source line 4361):
PAROPT_LINE_SEARCH_FAILURE alone. -/
def lineSearchInit : LineSearchStatus :=
  { success := false, failure := true, min_step := false,
    max_iters := false, no_improvement := false }

/-- Updates applied to the fail variable of lineSearch, one constructor per
assignment in the source: set SUCCESS with or without MIN_STEP (lines
4447 and 4451), accumulate MIN_STEP (lines 4466 and 4476), accumulate
MAX_ITERS (line 4491), accept the best point adding SUCCESS and clearing
FAILURE (lines 4501-4503), raise NO_IMPROVEMENT under its guard (lines
4505-4508, carrying the merit values compared there), or reset to FAILURE
after a failed re-evaluation (line 4546). -/
inductive LineSearchEvent where
  | successMinStep : LineSearchEvent
  | success : LineSearchEvent
  | minStep : LineSearchEvent
  | maxIters : LineSearchEvent
  | acceptBest : LineSearchEvent
  | noImprov (merit m0 : ℚ) : LineSearchEvent
  | failEval : LineSearchEvent

/-- Effect of one lineSearch assignment on the fail variable; the
NO_IMPROVEMENT bit is set only when lineSearchNoImprovGuard holds (source
lines 4505-4508). -/
def applyLineSearchEvent (function_precision : ℚ) (st : LineSearchStatus) :
    LineSearchEvent → LineSearchStatus
  | .successMinStep =>
    { success := true, failure := false, min_step := true,
      max_iters := false, no_improvement := false }
  | .success =>
    { success := true, failure := false, min_step := false,
      max_iters := false, no_improvement := false }
  | .minStep => { st with min_step := true }
  | .maxIters => { st with max_iters := true }
  | .acceptBest => { st with success := true, failure := false }
  | .noImprov merit m0 =>
    if lineSearchNoImprovGuard merit m0 function_precision then
      { st with no_improvement := true }
    else st
  | .failEval =>
    { success := false, failure := true, min_step := false,
      max_iters := false, no_improvement := false }

/-- Value of the fail variable after a sequence of lineSearch assignments,
starting from lineSearchInit. -/
def runLineSearchEvents (function_precision : ℚ)
    (evs : List LineSearchEvent) : LineSearchStatus :=
  evs.foldl (applyLineSearchEvent function_precision) lineSearchInit

/-- Test feeding the two-consecutive-no-improvement convergence counter
(source lines 5539-5542): the line-search outcome carries NO_IMPROVEMENT,
MIN_STEP or FAILURE. -/
def noMeritFunctionImprovement (line_fail : LineSearchStatus) : Bool :=
  line_fail.no_improvement || line_fail.min_step || line_fail.failure

/-- Concrete state used to exercise computeComp: one live lower bound with
slack 1 and multiplier 2, no upper bounds, no dense constraints. -/
def compStateA : CompInput where
  use_lower := true
  use_upper := false
  dense_inequality := true
  max_bound_val := 1000
  rel_bound_barrier := 1
  x := [1]
  lb := [0]
  ub := []
  zl := [2]
  zu := []
  s := []
  z := []
  t := []
  zt := []

/-- Concrete state used to exercise computeComp with both bounds live and one
dense constraint. -/
def compStateB : CompInput where
  use_lower := true
  use_upper := true
  dense_inequality := true
  max_bound_val := 1000
  rel_bound_barrier := 1
  x := [1/2]
  lb := [0]
  ub := [1]
  zl := [2]
  zu := [4]
  s := [1]
  z := [1]
  t := [1]
  zt := [1]

/-- Concrete solver state used to exercise the checkpoint routines. -/
def ckptStateA : SolverState where
  barrier_param := 1/2
  z := [1]
  s := [2]
  x := [3]
  zl := [4]
  zu := [5]
  zw := [6]
  sw := [7]
  t := [8]
  zt := [9]

/-- The same solver state with different t slacks and zt multipliers,
standing for the state of the solver at the time of the read. -/
def ckptStateB : SolverState :=
  { ckptStateA with t := [10], zt := [11] }

/-! Theorems. -/

theorem computeStepComponent_lower_le (dp a lo x p : ℚ) :
    lo + dp ≤ computeStepComponent dp a (some lo) none x p := by
  simp only [computeStepComponent]
  split_ifs with h
  · exact le_refl _
  · exact le_of_not_le h

theorem computeStepComponent_bounds_le (dp a lo hi x p : ℚ)
    (h : lo + dp ≤ hi - dp) :
    lo + dp ≤ computeStepComponent dp a (some lo) (some hi) x p ∧
      computeStepComponent dp a (some lo) (some hi) x p ≤ hi - dp := by
  simp only [computeStepComponent]
  split_ifs with h1 h2 h3 <;> constructor <;> linarith

theorem computeStepLowerList_mem_le (dp a lo : ℚ) (xs ps : List ℚ) :
    ∀ y ∈ computeStepLowerList dp a lo xs ps, lo + dp ≤ y := by
  intro y hy
  simp only [computeStepLowerList, List.mem_map] at hy
  obtain ⟨q, _, rfl⟩ := hy
  exact computeStepComponent_lower_le dp a lo q.1 q.2

theorem computeStepBoundsList_componentwise (dp a : ℚ) (xs : List ℚ) :
    ∀ (ps lbs ubs : List ℚ) (i : ℕ) (y l u : ℚ),
      (computeStepBoundsList dp a xs ps lbs ubs)[i]? = some y →
      lbs[i]? = some l → ubs[i]? = some u → l + dp ≤ u - dp →
      l + dp ≤ y ∧ y ≤ u - dp := by
  induction xs with
  | nil =>
    intro ps lbs ubs i y l u hy hl hu hsep
    simp [computeStepBoundsList] at hy
  | cons x xs ih =>
    intro ps lbs ubs i y l u hy hl hu hsep
    cases ps with
    | nil => simp [computeStepBoundsList] at hy
    | cons p ps =>
      cases lbs with
      | nil => simp at hl
      | cons l0 lbs =>
        cases ubs with
        | nil => simp at hu
        | cons u0 ubs =>
          have hcons : computeStepBoundsList dp a (x :: xs) (p :: ps)
              (l0 :: lbs) (u0 :: ubs) =
              computeStepComponent dp a (some l0) (some u0) x p ::
                computeStepBoundsList dp a xs ps lbs ubs := by
            simp [computeStepBoundsList]
          rw [hcons] at hy
          cases i with
          | zero =>
            simp only [List.getElem?_cons_zero, Option.some.injEq] at hy hl hu
            subst hy
            subst hl
            subst hu
            exact computeStepComponent_bounds_le dp a _ _ x p hsep
          | succ n =>
            simp only [List.getElem?_cons_succ] at hy hl hu
            exact ih ps lbs ubs n y l u hy hl hu hsep

/-- Claim C5: after each accepted update in computeStepAndUpdate and at each
line-search trial point, every inequality slack and multiplier among s, t,
sw, z, zt, zw, zl, zu is at least design_precision above zero, and x is
componentwise between lb + design_precision and ub - design_precision (the
component at every index i lies between the bounds at that same index),
because computeStep and computeStepVec clamp any violating component back to
the bound offset by design_precision. -/
theorem step_clamps_strict_interior (dp a : ℚ) (lb ub : List ℚ)
    (v : VarVecs) (p : StepVecs)
    (h : ∀ (i : ℕ) (l u : ℚ), lb[i]? = some l → ub[i]? = some u →
      l + dp ≤ u - dp) :
    (∀ (i : ℕ) (y l u : ℚ),
      (computeStepAndUpdateVars dp a lb ub true true true true v p).x[i]?
          = some y →
      lb[i]? = some l → ub[i]? = some u → l + dp ≤ y ∧ y ≤ u - dp) ∧
    (∀ y ∈ (computeStepAndUpdateVars dp a lb ub true true true true v p).s,
        dp ≤ y) ∧
    (∀ y ∈ (computeStepAndUpdateVars dp a lb ub true true true true v p).t,
        dp ≤ y) ∧
    (∀ y ∈ (computeStepAndUpdateVars dp a lb ub true true true true v p).z,
        dp ≤ y) ∧
    (∀ y ∈ (computeStepAndUpdateVars dp a lb ub true true true true v p).zt,
        dp ≤ y) ∧
    (∀ y ∈ (computeStepAndUpdateVars dp a lb ub true true true true v p).zw,
        dp ≤ y) ∧
    (∀ y ∈ (computeStepAndUpdateVars dp a lb ub true true true true v p).sw,
        dp ≤ y) ∧
    (∀ y ∈ (computeStepAndUpdateVars dp a lb ub true true true true v p).zl,
        dp ≤ y) ∧
    (∀ y ∈ (computeStepAndUpdateVars dp a lb ub true true true true v p).zu,
        dp ≤ y) ∧
    (∀ (i : ℕ) (y l u : ℚ),
      (lineSearchTrialPoint dp a lb ub v p).rx[i]? = some y →
      lb[i]? = some l → ub[i]? = some u → l + dp ≤ y ∧ y ≤ u - dp) ∧
    (∀ y ∈ (lineSearchTrialPoint dp a lb ub v p).rs, dp ≤ y) ∧
    (∀ y ∈ (lineSearchTrialPoint dp a lb ub v p).rt, dp ≤ y) ∧
    (∀ y ∈ (lineSearchTrialPoint dp a lb ub v p).rsw, dp ≤ y) := by
  have hlow : ∀ xs ps : List ℚ, ∀ y ∈ computeStepLowerList dp a 0 xs ps,
      dp ≤ y := by
    intro xs ps y hy
    have := computeStepLowerList_mem_le dp a 0 xs ps y hy
    linarith
  have hx : ∀ (i : ℕ) (y l u : ℚ),
      (computeStepBoundsList dp a v.x p.px lb ub)[i]? = some y →
      lb[i]? = some l → ub[i]? = some u → l + dp ≤ y ∧ y ≤ u - dp :=
    fun i y l u hy hl hu =>
      computeStepBoundsList_componentwise dp a v.x p.px lb ub i y l u hy hl
        hu (h i l u hl hu)
  simp only [computeStepAndUpdateVars, lineSearchTrialPoint, if_pos]
  exact ⟨hx, hlow _ _, hlow _ _, hlow _ _, hlow _ _, hlow _ _, hlow _ _,
    hlow _ _, hlow _ _, hx, hlow _ _, hlow _ _, hlow _ _⟩

theorem step_clamps_strict_interior_witness :
    (∀ (i : ℕ) (l u : ℚ), ([(0 : ℚ)])[i]? = some l →
      ([(1 : ℚ)])[i]? = some u → l + 1/4 ≤ u - 1/4) ∧
    (∀ (i : ℕ) (y l u : ℚ),
      (computeStepAndUpdateVars (1/4) 1 [(0 : ℚ)] [(1 : ℚ)]
        true true true true
        ⟨[1/2], [1/2], [1/2], [1/2], [1/2], [1/2], [1/2], [1/2], [1/2]⟩
        ⟨[10], [-10], [-10], [-10], [-10], [-10], [-10], [-10], [-10]⟩).x[i]?
          = some y →
      ([(0 : ℚ)])[i]? = some l → ([(1 : ℚ)])[i]? = some u →
      l + 1/4 ≤ y ∧ y ≤ u - 1/4) :=
  ⟨by
    intro i l u hl hu
    cases i with
    | zero =>
      simp only [List.getElem?_cons_zero, Option.some.injEq] at hl hu
      subst hl
      subst hu
      norm_num
    | succ n => simp at hl,
    (step_clamps_strict_interior (1/4) 1 [(0 : ℚ)] [(1 : ℚ)]
      ⟨[1/2], [1/2], [1/2], [1/2], [1/2], [1/2], [1/2], [1/2], [1/2]⟩
      ⟨[10], [-10], [-10], [-10], [-10], [-10], [-10], [-10], [-10]⟩
      (by
        intro i l u hl hu
        cases i with
        | zero =>
          simp only [List.getElem?_cons_zero, Option.some.injEq] at hl hu
          subst hl
          subst hu
          norm_num
        | succ n => simp at hl)).1⟩

/-- Claim C6 counterexample: with alpha_x = 1/2 and alpha_z = 1/4 and the
step pzt = [1], the source scaling (scaleKKTStepVecs, which scales pzt by
alpha_z, source line 3732) differs from the scaling asserted by the spec
(scaleKKTStepVecsSpec, which scales pzt by alpha_x). -/
theorem scaleKKTStep_pzt_counterexample :
    scaleKKTStepVecs (1/2) (1/4) true true true true
        ⟨[], [], [], [], [1], [], [], [], []⟩ ≠
      scaleKKTStepVecsSpec (1/2) (1/4) true true true true
        ⟨[], [], [], [], [1], [], [], [], []⟩ := by
  intro h
  have h2 := congrArg StepVecs.pzt h
  simp [scaleKKTStepVecs, scaleKKTStepVecsSpec] at h2

/-- Claim C6 (amended): in the fraction-to-boundary step scaling, the scalar
alpha_x is applied componentwise to px, ps, pt and psw, and the scalar
alpha_z is applied componentwise to pz, pzt, pzl, pzu and pzw (source lines
3713-3733; in particular pzt is scaled by alpha_z, not alpha_x). -/
theorem scaleKKTStep_scalar_partition (ax az : ℚ) (p : StepVecs) (i : ℕ) :
    (scaleKKTStepVecs ax az true true true true p).px[i]? =
        p.px[i]?.map (fun w => ax * w) ∧
    (scaleKKTStepVecs ax az true true true true p).ps[i]? =
        p.ps[i]?.map (fun w => ax * w) ∧
    (scaleKKTStepVecs ax az true true true true p).pt[i]? =
        p.pt[i]?.map (fun w => ax * w) ∧
    (scaleKKTStepVecs ax az true true true true p).psw[i]? =
        p.psw[i]?.map (fun w => ax * w) ∧
    (scaleKKTStepVecs ax az true true true true p).pz[i]? =
        p.pz[i]?.map (fun w => az * w) ∧
    (scaleKKTStepVecs ax az true true true true p).pzt[i]? =
        p.pzt[i]?.map (fun w => az * w) ∧
    (scaleKKTStepVecs ax az true true true true p).pzl[i]? =
        p.pzl[i]?.map (fun w => az * w) ∧
    (scaleKKTStepVecs ax az true true true true p).pzu[i]? =
        p.pzu[i]?.map (fun w => az * w) ∧
    (scaleKKTStepVecs ax az true true true true p).pzw[i]? =
        p.pzw[i]?.map (fun w => az * w) := by
  simp [scaleKKTStepVecs, List.getElem?_map]

/-- Claim C1: evaluating the embedded early-return phase of optimize at the
failing input where the initial objective and constraint evaluation succeeds
(fail_obj = 0) and the initial gradient evaluation fails (fail_gobj = 1):
optimize exits early but returns the code 0, the success value, because line
4811 of the source returns fail_obj instead of fail_gobj.  The claim, and
the evident intent of the code, is to return the nonzero failure code. -/
theorem optimize_initial_gradient_failure_code :
    optimizeInitEval 0 1 = some 0 := by
  rfl

/-- Claim C2: the convergence gate of optimize declares global convergence
exactly when the iteration count k is positive, the barrier parameter is at
most 0.1 times abs_res_tol, and either the KKT residual norm is below
abs_res_tol, or the relative function-value test passes (the previous x and
z steps were both full and the change in the objective is below rel_func_tol
times the magnitude of the previous value), or the no-merit-improvement
line-search counter has reached two.  When the gate holds the major
iteration loop exits. -/
theorem optimize_convergence_gate_iff (k : ℕ)
    (mu tol res axp azp f fprev rtol : ℚ) (ls : ℕ) :
    checkConvergence k mu tol res (relFunctionTest axp azp f fprev rtol) ls
        = true ↔
      (0 < k ∧ mu ≤ (1 / 10) * tol ∧
        (res < tol ∨ (axp = 1 ∧ azp = 1 ∧ |f - fprev| < rtol * |fprev|) ∨
          2 ≤ ls)) := by
  simp only [checkConvergence, relFunctionTest, Bool.and_eq_true,
    Bool.or_eq_true, decide_eq_true_eq]
  tauto

theorem if_lt_else_eq_min (a b : ℚ) : (if b < a then b else a) = min a b := by
  rcases lt_or_ge b a with h | h
  · rw [if_pos h, min_eq_right h.le]
  · rw [if_neg (not_lt.mpr h), min_eq_left h]

/-- Claim C3 counterexample: with abs_res_tol = 1 and the two barrier
candidates mu_frac = 99995/1000000 and mu_pow = 1, their minimum 0.099995
already exceeds the floor 0.09999, so a value floored at
0.09999*abs_res_tol would be 0.099995; the source instead truncates every
value below 0.1*abs_res_tol down to 0.09999*abs_res_tol and produces
0.09999. -/
theorem monotone_barrier_floor_counterexample :
    monotoneNewBarrier (99995 / 1000000) 1 1 ≠
      monotoneNewBarrierClaim (99995 / 1000000) 1 1 := by
  norm_num [monotoneNewBarrier, monotoneNewBarrierClaim]

/-- Claim C3 (amended): under the Monotone strategy, the barrier subproblem
is declared converged exactly when k > 0 and either the residual norm is
below 10*mu, the relative function test passes, or the line-search test
counter has reached two; in that case the new barrier parameter is
min(monotone_barrier_fraction*mu, mu^monotone_barrier_power) when that
minimum is at least 0.1*abs_res_tol and 0.09999*abs_res_tol otherwise (so
any value below 0.1*abs_res_tol is replaced by 0.09999*abs_res_tol, which
can lower a value slightly above the 0.09999*abs_res_tol mark), the penalty
parameter is reset to min_rho_penalty_search, and the KKT residuals are
recomputed at the new barrier value. -/
theorem monotone_barrier_update_characterization (k : ℕ) (res : ℚ)
    (rel : Bool) (ls : ℕ) (mu mu_pow tol frac rho min_rho : ℚ)
    (h : barrierConverged k res mu rel ls = true) :
    (0 < k ∧ (res < 10 * mu ∨ rel = true ∨ 2 ≤ ls)) ∧
    monotoneBarrierUpdate k res rel ls mu mu_pow tol frac rho min_rho =
      { barrier_param := if min (frac * mu) mu_pow < (1 / 10) * tol then
            (9999 / 100000) * tol else min (frac * mu) mu_pow
        rho_penalty_search := min_rho
        res_recompute := some (if min (frac * mu) mu_pow < (1 / 10) * tol then
            (9999 / 100000) * tol else min (frac * mu) mu_pow) } := by
  constructor
  · have h2 := h
    simp only [barrierConverged, Bool.and_eq_true, Bool.or_eq_true,
      decide_eq_true_eq] at h2
    tauto
  · rw [monotoneBarrierUpdate, if_pos h]
    rw [monotoneNewBarrier]
    rw [if_lt_else_eq_min]

theorem monotone_barrier_update_characterization_witness :
    monotoneBarrierUpdate 1 0 false 0 1 2 1 (1/4) 5 3 =
      { barrier_param := 1/4, rho_penalty_search := 3,
        res_recompute := some (1/4) } := by
  have h := monotone_barrier_update_characterization 1 0 false 0 1 2 1 (1/4)
    5 3 (by norm_num [barrierConverged])
  rw [h.2]
  norm_num

/-- Claim C4 counterexample: with the single sparse block Cw = [0]
(nwblock = 1) the factorization is singular and factorCw reports the nonzero
status one, yet setUpKKTDiagSystem returns no failure code to its caller:
the function is void, the factorCw status at line 2077 is discarded and the
LU info at line 2198 is never read. -/
theorem kkt_factorization_failure_counterexample :
    (factorCw [0]).1 = 1 ∧
      setUpKKTDiagSystemStatusToCaller [0] 0 = none := by
  exact ⟨rfl, rfl⟩

/-- Claim C4 (amended): a zero pivot in the diagonal Cw buffer makes
factorCw return a nonzero failure code, but setUpKKTDiagSystem discards that
code (and ignores the LAPACK info of the LU factorization of D), so no
failure code reaches its caller and a singular factorization is not treated
as a line-search failure. -/
theorem kkt_factorization_failure_not_propagated (Cw : List ℚ) (info : ℤ)
    (h : (0 : ℚ) ∈ Cw) :
    (factorCw Cw).1 ≠ 0 ∧
      setUpKKTDiagSystemStatusToCaller Cw info = none := by
  refine ⟨?_, rfl⟩
  induction Cw with
  | nil => cases h
  | cons c rest ih =>
    by_cases hc : c = 0
    · simp [factorCw, hc]
    · have hmem : (0 : ℚ) ∈ rest := by
        rcases List.mem_cons.mp h with h0 | h0
        · exact absurd h0.symm hc
        · exact h0
      simp only [factorCw, if_neg hc]
      exact ih hmem

theorem kkt_factorization_failure_not_propagated_witness :
    (0 : ℚ) ∈ [(0 : ℚ), 5] ∧
      ((factorCw [(0 : ℚ), 5]).1 ≠ 0 ∧
        setUpKKTDiagSystemStatusToCaller [(0 : ℚ), 5] 7 = none) :=
  ⟨by simp,
    kkt_factorization_failure_not_propagated [(0 : ℚ), 5] 7 (by simp)⟩

theorem compLowerAcc_spec (m : ℚ) (l : List (ℚ × ℚ × ℚ)) (acc : ℚ × ℚ) :
    compLowerAcc m l acc =
      (acc.1 + ((l.filter fun q => decide (-m < q.2.1)).map
          fun q => q.2.2 * (q.1 - q.2.1)).sum,
       acc.2 + ((l.filter fun q => decide (-m < q.2.1)).length : ℚ)) := by
  induction l generalizing acc with
  | nil => simp [compLowerAcc]
  | cons q l ih =>
    simp only [compLowerAcc, List.foldl_cons] at ih ⊢
    by_cases hq : -m < q.2.1
    · rw [if_pos hq, ih]
      simp only [List.filter_cons, hq, decide_True, if_true, List.map_cons,
        List.sum_cons, List.length_cons, Prod.mk.injEq]
      constructor
      · ring
      · push_cast
        ring
    · rw [if_neg hq, ih]
      simp [List.filter_cons, hq]

theorem compUpperAcc_spec (m : ℚ) (l : List (ℚ × ℚ × ℚ)) (acc : ℚ × ℚ) :
    compUpperAcc m l acc =
      (acc.1 + ((l.filter fun q => decide (q.2.1 < m)).map
          fun q => q.2.2 * (q.2.1 - q.1)).sum,
       acc.2 + ((l.filter fun q => decide (q.2.1 < m)).length : ℚ)) := by
  induction l generalizing acc with
  | nil => simp [compUpperAcc]
  | cons q l ih =>
    simp only [compUpperAcc, List.foldl_cons] at ih ⊢
    by_cases hq : q.2.1 < m
    · rw [if_pos hq, ih]
      simp only [List.filter_cons, hq, decide_True, if_true, List.map_cons,
        List.sum_cons, List.length_cons, Prod.mk.injEq]
      constructor
      · ring
      · push_cast
        ring
    · rw [if_neg hq, ih]
      simp [List.filter_cons, hq]

theorem compDenseAcc_spec (l : List ((ℚ × ℚ) × ℚ × ℚ)) (acc : ℚ × ℚ) :
    compDenseAcc l acc =
      (acc.1 + (l.map fun q => q.1.1 * q.1.2 + q.2.1 * q.2.2).sum,
       acc.2 + 2 * (l.length : ℚ)) := by
  induction l generalizing acc with
  | nil => simp [compDenseAcc]
  | cons q l ih =>
    simp only [compDenseAcc, List.foldl_cons] at ih ⊢
    rw [ih]
    simp only [List.map_cons, List.sum_cons, List.length_cons, Prod.mk.injEq]
    constructor
    · ring
    · push_cast
      ring

/-- Claim C7 counterexample: on the state compStateA, which has one live
lower bound with complementarity product 2, no dense constraints and a
solver with one sparse inequality constraint, getComplementarity returns
2/1 = 2 (source lines 3255-3319 never count sparse constraints in the
divisor), while the value asserted by the spec divides by
2*ncon + live bounds + nwcon_ineq = 0 + 1 + 1 and gives 1. -/
theorem getComplementarity_divisor_counterexample :
    getComplementarity compStateA ≠ getComplementarityClaim compStateA 1 := by
  norm_num [getComplementarity, computeComp, getComplementarityClaim,
    compStateA, compLowerAcc, compUpperAcc, compDenseAcc]

/-- Claim C7 (amended): for every state with the lower, upper and dense
inequality flags set and with the dense vectors s, z, t, zt of equal length
ncon, getComplementarity returns the sum over live bounds of bound slack
times bound multiplier divided by rel_bound_barrier, plus the sum over the
dense constraints of s*z + t*zt, all divided by 2*ncon plus the number of
live bounds; the number of sparse inequality constraints does not enter the
divisor. -/
theorem getComplementarity_closed_form (ci : CompInput)
    (hl : ci.use_lower = true) (hu : ci.use_upper = true)
    (hd : ci.dense_inequality = true)
    (h1 : ci.s.length = ci.z.length) (h2 : ci.t.length = ci.z.length)
    (h3 : ci.zt.length = ci.z.length) :
    getComplementarity ci = computeCompAmended ci := by
  have hlen : (((ci.s.zip ci.z).zip (ci.t.zip ci.zt)).length : ℚ) =
      (ci.z.length : ℚ) := by
    simp [List.length_zip, h1, h2, h3]
  simp only [getComplementarity, computeComp, computeCompAmended, hl, hu, hd,
    if_true, compLowerAcc_spec, compUpperAcc_spec, compDenseAcc_spec]
  rw [hlen]
  split_ifs with h0
  · congr 1 <;> ring
  · push_neg at h0
    rw [show 2 * (ci.z.length : ℚ) +
        (((((ci.x.zip (ci.lb.zip ci.zl)).filter fun q =>
          decide (-ci.max_bound_val < q.2.1)).length : ℚ)) +
         ((((ci.x.zip (ci.ub.zip ci.zu)).filter fun q =>
          decide (q.2.1 < ci.max_bound_val)).length : ℚ))) = 0 from by
      rw [← h0]; ring]
    rw [div_zero]

theorem getComplementarity_closed_form_witness :
    getComplementarity compStateB = 5 / 4 := by
  have h := getComplementarity_closed_form compStateB rfl rfl rfl rfl rfl rfl
  rw [h]
  simp only [computeCompAmended, compStateB]
  norm_num

/-- Claim C8 counterexample: write the state ckptStateA, let the t slacks
change to the value in ckptStateB, then read the file back.  The t slacks of
the resulting state are those of ckptStateB, not those written, because the
checkpoint file stores neither t nor zt (source lines 791-876 write only the
sizes, the barrier parameter, z, s, x, zl, zu, zw and sw). -/
theorem checkpoint_roundtrip_counterexample :
    ((readSolutionFile (writeSolutionFile ckptStateA) ckptStateB).2).t ≠
      ckptStateA.t := by
  norm_num [readSolutionFile, writeSolutionFile, ckptStateA, ckptStateB]

/-- Claim C8 (amended): writing a checkpoint and reading it back from any
later state of the same sizes succeeds and restores the barrier parameter,
z, s, x, zl, zu, zw and sw bit-identically to their values at the time of
the write; the t slacks and zt multipliers are not stored in the file and
keep their values at the time of the read. -/
theorem checkpoint_roundtrip_restores_stored_fields (st st2 : SolverState)
    (h1 : st2.x.length = st.x.length) (h2 : st2.zw.length = st.zw.length)
    (h3 : st2.z.length = st.z.length) :
    readSolutionFile (writeSolutionFile st) st2 =
      (0, { st2 with
        barrier_param := st.barrier_param
        z := st.z
        s := st.s
        x := st.x
        zl := st.zl
        zu := st.zu
        zw := st.zw
        sw := st.sw }) := by
  rw [readSolutionFile, if_neg]
  · rfl
  · push_neg
    exact ⟨h1.symm, h2.symm, h3.symm⟩

theorem checkpoint_roundtrip_restores_stored_fields_witness :
    readSolutionFile (writeSolutionFile ckptStateA) ckptStateB =
      (0, { ckptStateB with
        barrier_param := ckptStateA.barrier_param
        z := ckptStateA.z
        s := ckptStateA.s
        x := ckptStateA.x
        zl := ckptStateA.zl
        zu := ckptStateA.zu
        zw := ckptStateA.zw
        sw := ckptStateA.sw }) :=
  checkpoint_roundtrip_restores_stored_fields ckptStateA ckptStateB rfl rfl
    rfl

/-- Claim C9: readSolutionFile is strict and atomic on size mismatch.  When
any of the sizes recorded in the checkpoint file differs from the sizes of
the solver, the call returns the failure code one and the solver state is
returned unmodified (source lines 910-939: the state fields are only read
after the size comparison succeeds, and the mismatch branch returns before
any assignment). -/
theorem readSolutionFile_strict_on_mismatch (file : CheckpointFile)
    (st : SolverState)
    (h : file.nvars_total ≠ st.x.length ∨ file.nwcon_total ≠ st.zw.length ∨
      file.ncon ≠ st.z.length) :
    readSolutionFile file st = (1, st) := by
  rw [readSolutionFile, if_pos h]

theorem readSolutionFile_strict_on_mismatch_witness :
    readSolutionFile
        ⟨2, 1, 1, 0, [1], [2], [3, 4], [5, 6], [7, 8], [9], [10]⟩
        ckptStateA = (1, ckptStateA) :=
  readSolutionFile_strict_on_mismatch
    ⟨2, 1, 1, 0, [1], [2], [3, 4], [5, 6], [7, 8], [9], [10]⟩ ckptStateA
    (Or.inl (by simp [ckptStateA]))

/-- Claim C10: whenever function_precision is positive, the NO_IMPROVEMENT
line-search outcome is unreachable: the guard in lineSearch (source lines
4505-4506) and the guard in the skipped-line-search path of optimize (source
lines 5450-5451) are both unsatisfiable, every reachable value of the
lineSearch fail variable has the NO_IMPROVEMENT flag clear, and whenever the
no-merit-improvement test holds for such a value it holds through the
MIN_STEP or FAILURE flag. -/
theorem no_improvement_unreachable (fp : ℚ) (hfp : 0 < fp) :
    (∀ merit m0 : ℚ, lineSearchNoImprovGuard merit m0 fp = false) ∧
    (∀ a b : ℚ, skippedStepNoImprovGuard a b fp = false) ∧
    (∀ evs : List LineSearchEvent,
      (runLineSearchEvents fp evs).no_improvement = false) ∧
    (∀ evs : List LineSearchEvent,
      noMeritFunctionImprovement (runLineSearchEvents fp evs) = true →
        ((runLineSearchEvents fp evs).min_step = true ∨
          (runLineSearchEvents fp evs).failure = true)) := by
  have g1 : ∀ merit m0 : ℚ, lineSearchNoImprovGuard merit m0 fp = false := by
    intro merit m0
    by_cases hle : m0 + fp ≤ merit
    · by_cases hge : merit + fp ≤ m0
      · exfalso
        linarith
      · simp [lineSearchNoImprovGuard, hge]
    · simp [lineSearchNoImprovGuard, hle]
  have g2 : ∀ a b : ℚ, skippedStepNoImprovGuard a b fp = false := by
    intro a b
    by_cases hle : a + fp ≤ b
    · by_cases hge : b + fp ≤ a
      · exfalso
        linarith
      · simp [skippedStepNoImprovGuard, hge]
    · simp [skippedStepNoImprovGuard, hle]
  have inv : ∀ (evs : List LineSearchEvent) (st : LineSearchStatus),
      st.no_improvement = false →
        (evs.foldl (applyLineSearchEvent fp) st).no_improvement = false := by
    intro evs
    induction evs with
    | nil =>
      intro st h
      simpa using h
    | cons e evs ih =>
      intro st h
      rw [List.foldl_cons]
      apply ih
      cases e with
      | successMinStep => rfl
      | success => rfl
      | minStep => simpa [applyLineSearchEvent] using h
      | maxIters => simpa [applyLineSearchEvent] using h
      | acceptBest => simpa [applyLineSearchEvent] using h
      | noImprov merit m0 =>
        simp only [applyLineSearchEvent, g1 merit m0, Bool.false_eq_true,
          if_false]
        exact h
      | failEval => rfl
  have g3 : ∀ evs : List LineSearchEvent,
      (runLineSearchEvents fp evs).no_improvement = false :=
    fun evs => inv evs lineSearchInit rfl
  refine ⟨g1, g2, g3, ?_⟩
  intro evs hne
  simp only [noMeritFunctionImprovement, g3 evs, Bool.false_or,
    Bool.or_eq_true] at hne
  exact hne

theorem no_improvement_unreachable_witness :
    ((0 : ℚ) < 1) ∧ lineSearchNoImprovGuard 3 5 1 = false ∧
      skippedStepNoImprovGuard 2 2 1 = false ∧
      (runLineSearchEvents 1 [LineSearchEvent.minStep]).no_improvement
        = false :=
  ⟨by norm_num, (no_improvement_unreachable 1 (by norm_num)).1 3 5,
    (no_improvement_unreachable 1 (by norm_num)).2.1 2 2,
    (no_improvement_unreachable 1 (by norm_num)).2.2.1
      [LineSearchEvent.minStep]⟩

end ParOpt
